import Mathlib

/-!
Shallow embedding of the memora repository's form-builder / request /
notification layer, translated from the TypeScript sources under
src/web and src/unnamed.  Each definition names the source file and
lines it embeds.
-/

/-! ## Form builder field model
    (src/web/src/shared/components/FormBuilder/fields/types.ts) -/

/-- The eight field type tags of the form builder. -/
inductive FieldType
  | text | email | password | number | textarea | select | checkbox | radio
deriving DecidableEq, Repr

/-- One field configuration (BaseFieldConfig): name, optional label,
    required and disabled flags, and the type tag.  Variant-specific
    presentation attributes (min/max/step, rows/cols, options,
    defaultChecked) do not influence value extraction and are omitted. -/
structure FieldConfig where
  name : String
  label : Option String := none
  required : Bool := false
  disabled : Bool := false
  type : FieldType
deriving DecidableEq, Repr

/-- A submitted form's raw data: the (name, value) entries of FormData.
    formData.get(name) returns the first entry's value, or null. -/
def formGet (entries : List (String × String)) (n : String) : Option String :=
  (entries.find? (fun e => e.1 == n)).map (fun e => e.2)

/-- JavaScript values that can appear in the assembled value map of
    handleSubmit. -/
inductive JSValue
  | undefinedValue
  | bool (b : Bool)
  | num (q : Rat)
  | str (s : String)
deriving DecidableEq, Repr

/-- Value of a decimal digit string. -/
def digitsToNat (cs : List Char) : Nat :=
  cs.foldl (fun a c => a * 10 + (c.toNat - 48)) 0

def allDigits (cs : List Char) : Bool := cs.all (fun c => c.isDigit)

/-- Split a character list at every occurrence of a separator. -/
def splitOnChar (c : Char) : List Char → List (List Char)
  | [] => [[]]
  | x :: xs =>
      match splitOnChar c xs with
      | [] => if x = c then [[], []] else [[x]]
      | h :: t => if x = c then [] :: h :: t else (x :: h) :: t

/-- Drop whitespace from both ends of a character list. -/
def trimChars (cs : List Char) : List Char :=
  ((cs.dropWhile Char.isWhitespace).reverse.dropWhile Char.isWhitespace).reverse

/-- Modelled platform semantics: the decimal fragment of JavaScript's
    Number() string coercion, used by handleSubmit's number branch.
    Integer and/or fraction digits around an optional decimal point;
    every other form is NaN, encoded as none.  (Exponent, hexadecimal
    and Infinity forms are omitted; no claim depends on them.) -/
def parseUnsignedDec (u : List Char) : Option Rat :=
  match splitOnChar '.' u with
  | [a] => if allDigits a && !a.isEmpty then some (digitsToNat a) else none
  | [a, b] =>
      if allDigits a && allDigits b && (!a.isEmpty || !b.isEmpty) then
        some ((digitsToNat a : Rat) + (digitsToNat b : Rat) / ((10 : Rat) ^ b.length))
      else none
  | _ => none

/-- JavaScript Number() on a string (modelled decimal fragment):
    whitespace is trimmed, the empty string is 0, then an optional sign
    precedes the unsigned decimal form. -/
def jsNumber (s : String) : Option Rat :=
  match trimChars s.toList with
  | [] => some 0
  | '-' :: rest => (parseUnsignedDec rest).map (fun q => -q)
  | '+' :: rest => parseUnsignedDec rest
  | t => parseUnsignedDec t

/-! ## handleSubmit value extraction
    (src/web/src/shared/components/FormBuilder/FormBuilder.tsx, lines 20-55) -/

/-- Checkbox coercion (FormBuilder.tsx line 33):
    values[name] = value === 'on' || value === 'true'. -/
def coerceCheckbox (v : Option String) : Bool :=
  v == some "on" || v == some "true"

/-- Number coercion (FormBuilder.tsx lines 35-36):
    numValue = value ? Number(value) : undefined;
    values[name] = !isNaN(numValue) ? numValue : undefined.
    A null or empty raw value is falsy, so numValue is undefined and
    isNaN(undefined) holds; a failed parse is NaN. -/
def coerceNumber (v : Option String) : Option Rat :=
  match v with
  | none => none
  | some s => if s = "" then none else jsNumber s

/-- field.label || field.name (FormBuilder.tsx line 42): an absent or
    empty label falls back to the name. -/
def labelOrName (f : FieldConfig) : String :=
  match f.label with
  | some l => if l = "" then f.name else l
  | none => f.name

/-- The field types handled by the final else branch of handleSubmit
    (text, email, password, textarea, select, radio). -/
def FieldType.textLike : FieldType → Bool
  | .checkbox => false
  | .number => false
  | _ => true

/-- Per-field branch of handleSubmit (FormBuilder.tsx lines 31-46):
    checkbox and number values are coerced unconditionally; only the
    text-like else branch can throw the required-field error. -/
def processField (f : FieldConfig) (v : Option String) : Except String JSValue :=
  match f.type with
  | .checkbox => .ok (.bool (coerceCheckbox v))
  | .number =>
      .ok (match coerceNumber v with
           | some q => .num q
           | none => .undefinedValue)
  | _ =>
      match v with
      | some s =>
          if s ≠ "" then .ok (.str s)
          else if f.required then .error (labelOrName f ++ " is required")
          else .ok .undefinedValue
      | none =>
          if f.required then .error (labelOrName f ++ " is required")
          else .ok .undefinedValue

/-- The extraction loop of handleSubmit (FormBuilder.tsx lines 28-47):
    coerce every configured field in order, stopping at the first thrown
    validation error. -/
def extractValues (fields : List FieldConfig) (fd : List (String × String)) :
    Except String (List (String × JSValue)) :=
  match fields with
  | [] => .ok []
  | f :: fs =>
      match processField f (formGet fd f.name) with
      | .error e => .error e
      | .ok v =>
          match extractValues fs fd with
          | .error e => .error e
          | .ok rest => .ok ((f.name, v) :: rest)

/-- Outcome of one submission attempt: a validation error thrown before
    the handler runs, or the caller-supplied onSubmit handler invoked
    with the assembled value map. -/
inductive SubmitOutcome
  | validationError (msg : String)
  | invoked (values : List (String × JSValue))
deriving DecidableEq, Repr

/-- handleSubmit (FormBuilder.tsx lines 20-55), up to the point where
    onSubmit is or is not invoked inside startTransition. -/
def handleSubmit (fields : List FieldConfig) (fd : List (String × String)) :
    SubmitOutcome :=
  match extractValues fields fd with
  | .error e => .validationError e
  | .ok vs => .invoked vs

example : handleSubmit [{ name := "n", required := true, type := .text }] []
    = SubmitOutcome.validationError "n is required" := by decide

example : handleSubmit [{ name := "n", required := true, type := .number }] []
    = SubmitOutcome.invoked [("n", JSValue.undefinedValue)] := by decide

example : jsNumber "42" = some 42 := by decide

example : jsNumber "abc" = none := by decide

/-- Any validation error thrown by a field branch comes from a text-like
    required field whose raw value is absent or empty, and carries the
    label-or-name message. -/
lemma processField_error_elim {f : FieldConfig} {v : Option String} {e : String}
    (h : processField f v = .error e) :
    f.type.textLike = true ∧ f.required = true ∧ (v = none ∨ v = some "") ∧
    e = labelOrName f ++ " is required" := by
  obtain ⟨n, l, req, dis, ty⟩ := f
  cases ty <;> cases v <;>
    simp only [processField, FieldType.textLike] at h ⊢ <;>
    (try split at h) <;> (try split at h) <;> simp_all

/-- A text-like required field with an absent or empty raw value throws
    the required-field error. -/
lemma processField_error_intro {f : FieldConfig} {v : Option String}
    (ht : f.type.textLike = true) (hr : f.required = true)
    (he : v = none ∨ v = some "") :
    processField f v = .error (labelOrName f ++ " is required") := by
  obtain ⟨n, l, req, dis, ty⟩ := f
  simp only at hr
  subst hr
  rcases he with he | he <;> subst he <;>
    cases ty <;> simp_all [processField, FieldType.textLike]

/-- A raw value is empty or absent when formData.get gave null or the
    empty string. -/
def rawEmpty (v : Option String) : Prop := v = none ∨ v = some ""

/-- The sample required number field used as C1's counterexample: the
    claim asserts the required check also covers number fields. -/
def requiredNumberField : FieldConfig :=
  { name := "amount", label := none, required := true, type := .number }

/-- C1 counterexample: a single required number field submitted with no
    raw data has an absent coerced value, yet handleSubmit does not fail
    with a validation error — it invokes the handler with the value map
    mapping the field to undefined.  The required check of
    FormBuilder.tsx lines 41-42 sits only in the text-like else branch,
    so number (and checkbox) fields bypass it. -/
theorem C1_counterexample :
    requiredNumberField.required = true ∧
    formGet [] requiredNumberField.name = none ∧
    coerceNumber (formGet [] requiredNumberField.name) = none ∧
    handleSubmit [requiredNumberField] [] =
      SubmitOutcome.invoked [("amount", JSValue.undefinedValue)] := by
  decide

/-- C1 (amended): for every text-like field (text, email, password,
    textarea, select, radio) marked required whose raw submitted value
    is empty or absent, handleSubmit fails with a validation error
    identifying some such field by label if present, else by name, and
    the submit handler is never invoked.  Checkbox and number fields
    bypass the required check. -/
theorem C1_required_text_validation (fields : List FieldConfig)
    (fd : List (String × String)) (f : FieldConfig) (hf : f ∈ fields)
    (ht : f.type.textLike = true) (hr : f.required = true)
    (he : rawEmpty (formGet fd f.name)) :
    ∃ g, g ∈ fields ∧ g.type.textLike = true ∧ g.required = true ∧
      rawEmpty (formGet fd g.name) ∧
      handleSubmit fields fd =
        SubmitOutcome.validationError (labelOrName g ++ " is required") := by
  induction fields with
  | nil => cases hf
  | cons f0 fs ih =>
      cases hp : processField f0 (formGet fd f0.name) with
      | error e =>
          obtain ⟨ht0, hr0, he0, hee⟩ := processField_error_elim hp
          subst hee
          refine ⟨f0, List.mem_cons_self f0 fs, ht0, hr0, he0, ?_⟩
          simp [handleSubmit, extractValues, hp]
      | ok v =>
          have hf' : f ∈ fs := by
            rcases List.mem_cons.mp hf with h0 | h0
            · subst h0
              rw [processField_error_intro ht hr he] at hp
              cases hp
            · exact h0
          obtain ⟨g, hg, hgt, hgr, hge, hout⟩ := ih hf'
          refine ⟨g, List.mem_cons_of_mem f0 hg, hgt, hgr, hge, ?_⟩
          simp only [handleSubmit] at hout ⊢
          simp only [extractValues, hp]
          cases hx : extractValues fs fd <;> simp [hx] at hout ⊢
          exact hout

/-- Witness for C1 (amended) at a concrete input: one required text
    field labelled "Name", submitted with no data. -/
theorem C1_required_text_validation_witness :
    handleSubmit
        [{ name := "name", label := some "Name", required := true,
           type := FieldType.text }] [] =
      SubmitOutcome.validationError "Name is required" := by
  obtain ⟨g, hg, -, -, -, hout⟩ :=
    C1_required_text_validation
      [{ name := "name", label := some "Name", required := true,
         type := FieldType.text }] []
      { name := "name", label := some "Name", required := true,
        type := FieldType.text }
      (List.mem_singleton.mpr rfl) rfl rfl (Or.inl rfl)
  rw [List.mem_singleton] at hg
  subst hg
  exact hout

/-- C8: for every number field, the handleSubmit branch is total — it
    always returns a value and never throws.  A null or empty raw value
    and a non-numeric raw value coerce to undefined; a numeric raw value
    coerces to its numeric value. -/
theorem C8_number_coercion_total (f : FieldConfig) (hf : f.type = .number)
    (v : Option String) :
    processField f v =
      .ok (match coerceNumber v with
           | some q => JSValue.num q
           | none => JSValue.undefinedValue) ∧
    (rawEmpty v → processField f v = .ok .undefinedValue) ∧
    (∀ s, v = some s → s ≠ "" → jsNumber s = none →
      processField f v = .ok .undefinedValue) ∧
    (∀ s q, v = some s → s ≠ "" → jsNumber s = some q →
      processField f v = .ok (.num q)) := by
  refine ⟨?_, ?_, ?_, ?_⟩
  · obtain ⟨n, l, req, dis, ty⟩ := f
    simp only at hf
    subst hf
    simp [processField]
  · rintro (hv | hv) <;> subst hv <;>
      obtain ⟨n, l, req, dis, ty⟩ := f <;> simp only at hf <;> subst hf <;>
      simp [processField, coerceNumber]
  · rintro s rfl hs hn
    obtain ⟨n, l, req, dis, ty⟩ := f
    simp only at hf
    subst hf
    simp [processField, coerceNumber, hs, hn]
  · rintro s q rfl hs hn
    obtain ⟨n, l, req, dis, ty⟩ := f
    simp only at hf
    subst hf
    simp [processField, coerceNumber, hs, hn]

/-- Witness for C8 at concrete inputs: a non-numeric raw value yields
    undefined, a numeric one yields its value, and the handler-facing
    branch never errors. -/
theorem C8_number_coercion_total_witness :
    processField { name := "amount", type := FieldType.number } (some "abc") =
        Except.ok JSValue.undefinedValue ∧
    processField { name := "amount", type := FieldType.number } (some "42") =
        Except.ok (JSValue.num 42) ∧
    processField { name := "amount", type := FieldType.number } none =
        Except.ok JSValue.undefinedValue := by
  refine ⟨?_, ?_, ?_⟩
  · exact (C8_number_coercion_total _ rfl _).2.2.1 "abc" rfl (by decide) (by decide)
  · exact (C8_number_coercion_total _ rfl _).2.2.2 "42" 42 rfl (by decide) (by decide)
  · exact (C8_number_coercion_total _ rfl _).2.1 (Or.inl rfl)

/-! ## Form builder single-flight submission (C3)
    (src/web/src/shared/components/FormBuilder/FormBuilder.tsx, lines 18-68) -/

/-- Session-local submission state of one FormBuilder instance: the
    isPending flag of useTransition, and the number of onSubmit handler
    invocations currently awaited. -/
structure FormState where
  pending : Bool
  inFlight : Nat
deriving DecidableEq, Repr

/-- Submission step relation of one FormBuilder instance.  A submit
    event is only deliverable while the controls are enabled: every
    field and the submit button carry disabled := isPending, so the
    submit transition is guarded on pending = false; startTransition
    then marks the instance pending while the handler's promise is
    awaited, and completion of that promise clears the flag. -/
inductive FormStep : FormState → FormState → Prop
  | submit (s : FormState) (h : s.pending = false) :
      FormStep s ⟨true, s.inFlight + 1⟩
  | finish (s : FormState) (h : 0 < s.inFlight) :
      FormStep s ⟨false, s.inFlight - 1⟩

/-- States reachable from the initial idle state of a fresh instance. -/
inductive FormReachable : FormState → Prop
  | init : FormReachable ⟨false, 0⟩
  | step {s s' : FormState} : FormReachable s → FormStep s s' → FormReachable s'

/-- C3: in every reachable state of the submission step relation, at
    most one submit handler invocation is in flight — exactly one while
    the pending flag is set and none otherwise — so submissions are
    strictly sequential within one instance. -/
theorem C3_single_flight (s : FormState) (h : FormReachable s) :
    s.inFlight = (if s.pending then 1 else 0) ∧ s.inFlight ≤ 1 := by
  induction h with
  | init => simp
  | step hr hs ih =>
      obtain ⟨ih1, -⟩ := ih
      cases hs with
      | submit hp =>
          rw [hp] at ih1
          simp at ih1
          simp [ih1]
      | finish hp =>
          split at ih1
          · simp [ih1]
          · rw [ih1] at hp
            simp at hp

/-- Witness for C3 at a concrete reachable state: right after one
    submission has begun, exactly one invocation is in flight. -/
theorem C3_single_flight_witness :
    (⟨true, 1⟩ : FormState).inFlight = 1 ∧ (⟨true, 1⟩ : FormState).inFlight ≤ 1 := by
  have h := C3_single_flight ⟨true, 1⟩
    (FormReachable.step FormReachable.init (FormStep.submit ⟨false, 0⟩ rfl))
  exact ⟨by simp [h.1], h.2⟩

/-! ## Field renderer dispatch (C9)
    (the Field component switch, src/web/src/shared/components/FormBuilder/
    fields — second document of TextareaField/TextareaField.tsx, lines 48-69) -/

/-- What the Field component renders for one configuration. -/
inductive Widget
  | textW | emailW | passwordW | numberW | textareaW | selectW | checkboxW
  | radioW | nothing
deriving DecidableEq, Repr

/-- The Field component's switch over config.type.  Configuration data
    arrives as plain strings (the spec allows forward-compatible tags),
    so the dispatch is modelled over an open string tag; the default
    branch returns null, rendered as nothing. -/
def renderField (t : String) : Widget :=
  if t = "text" then .textW
  else if t = "email" then .emailW
  else if t = "password" then .passwordW
  else if t = "number" then .numberW
  else if t = "textarea" then .textareaW
  else if t = "select" then .selectW
  else if t = "checkbox" then .checkboxW
  else if t = "radio" then .radioW
  else .nothing

/-- The eight supported type tags. -/
def supportedFieldTags : List String :=
  ["text", "email", "password", "number", "textarea", "select", "checkbox",
   "radio"]

/-- C9: an unsupported type tag renders nothing (the switch's default
    returns null) rather than failing, and each of the eight supported
    tags renders exactly the matching widget. -/
theorem C9_renderer_dispatch :
    (∀ t : String, t ∉ supportedFieldTags → renderField t = .nothing) ∧
    renderField "text" = .textW ∧ renderField "email" = .emailW ∧
    renderField "password" = .passwordW ∧ renderField "number" = .numberW ∧
    renderField "textarea" = .textareaW ∧ renderField "select" = .selectW ∧
    renderField "checkbox" = .checkboxW ∧ renderField "radio" = .radioW := by
  refine ⟨?_, by decide, by decide, by decide, by decide, by decide, by decide,
    by decide, by decide⟩
  intro t ht
  simp only [supportedFieldTags, List.mem_cons, List.not_mem_nil, or_false,
    not_or] at ht
  obtain ⟨h1, h2, h3, h4, h5, h6, h7, h8⟩ := ht
  simp [renderField, h1, h2, h3, h4, h5, h6, h7, h8]

/-- Witness for C9 at a concrete unsupported tag. -/
theorem C9_renderer_dispatch_witness : renderField "card" = Widget.nothing :=
  C9_renderer_dispatch.1 "card" (by decide)

/-! ## Notification provider (C6, C10)
    (src/unnamed/part_013; src/web/src/shared/components/Notification/
    Notification.tsx) -/

/-- Notification type tags (Notification/types.ts). -/
inductive NotificationType
  | success | error | info | warning
deriving DecidableEq, Repr

/-- One notification record (NotificationData). -/
structure NotificationData where
  id : String
  type : NotificationType
  message : String
  duration : Int
deriving DecidableEq, Repr

/-- showNotification (part_013 lines 24-37) builds the record that is
    appended to the list.  The freshly generated id derives from the
    current time and a random component and is passed in here as a
    parameter; an omitted (undefined) type argument defaults to info and
    an omitted duration argument defaults to 3000. -/
def showNotification (id message : String) (typeArg : Option NotificationType)
    (durationArg : Option Int) : NotificationData :=
  { id := id, type := typeArg.getD .info, message := message,
    duration := durationArg.getD 3000 }

/-- The per-type convenience wrappers (part_013 lines 39-65) forward the
    possibly-omitted duration argument unchanged. -/
def successNotification (id message : String) (durationArg : Option Int) :
    NotificationData :=
  showNotification id message (some .success) durationArg

def errorNotification (id message : String) (durationArg : Option Int) :
    NotificationData :=
  showNotification id message (some .error) durationArg

def infoNotification (id message : String) (durationArg : Option Int) :
    NotificationData :=
  showNotification id message (some .info) durationArg

def warningNotification (id message : String) (durationArg : Option Int) :
    NotificationData :=
  showNotification id message (some .warning) durationArg

/-- Provider-owned state: the active notification list, plus the armed
    auto-dismiss timeouts (notification id, duration) of the rendered
    Notification components. -/
structure NotifState where
  notifs : List NotificationData
  timers : List (String × Int)
deriving DecidableEq, Repr

/-- Insertion: part_013 line 34 appends the record; the rendered
    Notification's effect (Notification.tsx lines 13-21) arms a timeout
    for it iff its duration is positive. -/
def insertNotif (s : NotifState) (n : NotificationData) : NotifState :=
  { notifs := s.notifs ++ [n],
    timers :=
      if 0 < n.duration then s.timers ++ [(n.id, n.duration)] else s.timers }

/-- Timer expiry: the armed timeout calls onClose(id), which filters the
    notification out by id (part_013 lines 20-22); the fired timeout is
    spent. -/
def fireTimer (s : NotifState) (i : String) : NotifState :=
  { notifs := s.notifs.filter (fun m => m.id != i),
    timers := s.timers.filter (fun td => td.1 != i) }

/-- Manual dismissal: the close button calls onClose(id), filtering the
    notification out by id, and the unmounting Notification's effect
    cleanup clears its pending timeout (Notification.tsx line 19). -/
def dismissNotif (s : NotifState) (i : String) : NotifState :=
  { notifs := s.notifs.filter (fun m => m.id != i),
    timers := s.timers.filter (fun td => td.1 != i) }

/-- Events of the notification lifecycle. -/
inductive NotifEvent
  | insert (n : NotificationData)
  | fire (i : String)
  | dismiss (i : String)

/-- Guard: a timeout can only fire while it is armed. -/
def notifEnabled (s : NotifState) : NotifEvent → Prop
  | .insert _ => True
  | .fire i => ∃ d, (i, d) ∈ s.timers
  | .dismiss _ => True

def notifApply (s : NotifState) : NotifEvent → NotifState
  | .insert n => insertNotif s n
  | .fire i => fireTimer s i
  | .dismiss i => dismissNotif s i

/-- C6: inserting a notification with positive duration arms a countdown
    for its id, and the countdown's expiry removes exactly that id from
    the list; a zero-or-negative duration arms no countdown, and (its id
    being fresh) no fire event can ever remove it, so it persists until
    dismissed; manual dismissal removes the id immediately and cancels
    its timer, so the fire event at the original deadline is no longer
    enabled; in general only a dismiss or an armed fire for exactly an
    element's id can remove that element. -/
theorem C6_notification_lifecycle (s : NotifState) (n : NotificationData)
    (i : String) :
    (0 < n.duration →
      (insertNotif s n).timers = s.timers ++ [(n.id, n.duration)]) ∧
    (n.duration ≤ 0 → (insertNotif s n).timers = s.timers) ∧
    (insertNotif s n).notifs = s.notifs ++ [n] ∧
    (fireTimer s i).notifs = s.notifs.filter (fun m => m.id != i) ∧
    (dismissNotif s i).notifs = s.notifs.filter (fun m => m.id != i) ∧
    (∀ d, (i, d) ∉ (dismissNotif s i).timers) ∧
    ¬ notifEnabled (dismissNotif s i) (.fire i) ∧
    ((∀ d, (n.id, d) ∉ s.timers) → n.duration ≤ 0 →
      ¬ notifEnabled (insertNotif s n) (.fire n.id)) ∧
    (∀ e m, m ∈ s.notifs → m ∉ (notifApply s e).notifs →
      e = .dismiss m.id ∨ e = .fire m.id) := by
  refine ⟨?_, ?_, rfl, rfl, rfl, ?_, ?_, ?_, ?_⟩
  · intro h
    simp [insertNotif, h]
  · intro h
    simp [insertNotif]
    omega
  · intro d hd
    simp [dismissNotif, List.mem_filter] at hd
  · rintro ⟨d, hd⟩
    simp [dismissNotif, List.mem_filter] at hd
  · intro hfresh hdur
    rintro ⟨d, hd⟩
    rw [show (insertNotif s n).timers = s.timers by simp [insertNotif]; omega] at hd
    exact hfresh d hd
  · intro e m hm hm'
    cases e with
    | insert n' =>
        exact absurd (by simp [notifApply, insertNotif, hm]) hm'
    | fire j =>
        right
        simp only [notifApply, fireTimer, List.mem_filter, hm, true_and] at hm'
        have hij : m.id = j := by
          by_contra hne
          exact hm' (by simp [hne])
        rw [hij]
    | dismiss j =>
        left
        simp only [notifApply, dismissNotif, List.mem_filter, hm, true_and] at hm'
        have hij : m.id = j := by
          by_contra hne
          exact hm' (by simp [hne])
        rw [hij]

/-- Witness for C6 at concrete data: insert success notification "a"
    with duration 100 into the empty state, then fire or dismiss. -/
theorem C6_notification_lifecycle_witness :
    (insertNotif ⟨[], []⟩ ⟨"a", .success, "ok", 100⟩).timers = [("a", 100)] ∧
    (fireTimer (insertNotif ⟨[], []⟩ ⟨"a", .success, "ok", 100⟩) "a").notifs
      = [] ∧
    ¬ notifEnabled (dismissNotif (insertNotif ⟨[], []⟩ ⟨"a", .success, "ok",
      100⟩) "a") (.fire "a") := by
  have h1 := C6_notification_lifecycle ⟨[], []⟩ ⟨"a", .success, "ok", 100⟩ "a"
  have h2 := C6_notification_lifecycle
    (insertNotif ⟨[], []⟩ ⟨"a", .success, "ok", 100⟩) ⟨"a", .success, "ok", 100⟩ "a"
  refine ⟨h1.1 (by decide), ?_, h2.2.2.2.2.2.2.1⟩
  rw [h2.2.2.2.1]
  decide

/-- C10: an omitted type argument defaults to info, an omitted duration
    argument defaults to 3000 ms, and every per-type wrapper called
    without an explicit duration produces a 3000 ms notification whose
    insertion arms a 3000 ms countdown (so it auto-dismisses). -/
theorem C10_notification_defaults (id m : String) (s : NotifState) :
    (showNotification id m none none).type = .info ∧
    (showNotification id m none none).duration = 3000 ∧
    (successNotification id m none).type = .success ∧
    (successNotification id m none).duration = 3000 ∧
    (errorNotification id m none).type = .error ∧
    (errorNotification id m none).duration = 3000 ∧
    (infoNotification id m none).type = .info ∧
    (infoNotification id m none).duration = 3000 ∧
    (warningNotification id m none).type = .warning ∧
    (warningNotification id m none).duration = 3000 ∧
    (insertNotif s (successNotification id m none)).timers
      = s.timers ++ [(id, 3000)] := by
  refine ⟨rfl, rfl, rfl, rfl, rfl, rfl, rfl, rfl, rfl, rfl, ?_⟩
  simp [insertNotif, successNotification, showNotification]

/-! ## Mutation hook state machine (C7)
    (src/web/src/shared/hooks/useService/README.md, useService lines
    397-427; the mutation lifecycle of the external query-caching
    library is an assumed collaborator, modelled from the spec) -/

inductive MutationStatus
  | idle | pending | success | error
deriving DecidableEq, Repr

/-- Modelled from the spec: the external query-caching library's
    mutation lifecycle assumed in section 4.5 — a status
    idle/pending/success/error with data and error slots. -/
structure MutationState (α : Type) where
  status : MutationStatus
  data : Option α
  err : Option String

/-- A fresh mutation instance is idle with no data and no error. -/
def mutationInit {α : Type} : MutationState α := ⟨.idle, none, none⟩

/-- fetch(params) enters the pending state and clears any previous
    error. -/
def mutationFetchStart {α : Type} (s : MutationState α) : MutationState α :=
  { s with status := .pending, err := none }

/-- The awaited service promise resolves: terminal success state. -/
def mutationResolve {α : Type} (_s : MutationState α) (d : α) :
    MutationState α :=
  ⟨.success, some d, none⟩

/-- The awaited service promise rejects: terminal error state. -/
def mutationReject {α : Type} (s : MutationState α) (e : String) :
    MutationState α :=
  { s with status := .error, err := some e }

/-- reset() clears the loaded/error state back to idle. -/
def mutationReset {α : Type} (_s : MutationState α) : MutationState α :=
  ⟨.idle, none, none⟩

/-- The result projection returned by useService (README lines 416-425):
    isLoading := mutation.isPending, isLoaded := mutation.isSuccess,
    error and result pass through. -/
structure UseServiceProjection (α : Type) where
  isLoading : Bool
  isLoaded : Bool
  error : Option String
  result : Option α

def projectMutation {α : Type} (s : MutationState α) :
    UseServiceProjection α :=
  ⟨s.status == .pending, s.status == .success, s.err, s.data⟩

/-- C7: the projection obeys idle → pending → success/error.  From idle,
    fetch then resolve reads isLoading false, isLoaded true, error null
    (with the result); fetch then reject reads isLoading false, isLoaded
    false, error set; reset from any state returns to idle, reading
    isLoaded false and error null; and fetch from any state re-enters
    pending. -/
theorem C7_mutation_state_machine (α : Type) (d : α) (e : String) :
    projectMutation (mutationResolve (mutationFetchStart mutationInit) d)
      = ⟨false, true, none, some d⟩ ∧
    projectMutation (mutationReject (mutationFetchStart mutationInit) e)
      = ⟨false, false, some e, (none : Option α)⟩ ∧
    (∀ s : MutationState α, projectMutation (mutationReset s)
      = ⟨false, false, none, none⟩) ∧
    (∀ s : MutationState α, (mutationFetchStart s).status = .pending) ∧
    (mutationResolve (mutationFetchStart (mutationInit (α := α))) d).status
      = .success ∧
    (mutationReject (mutationFetchStart (mutationInit (α := α))) e).status
      = .error := by
  exact ⟨rfl, rfl, fun s => rfl, fun s => rfl, rfl, rfl⟩

/-! ## Request builder (C5, C2)
    (src/web/src/shared/services/ManageService.ts, lines 13-110;
    constants from src/unnamed/part_014) -/

/-- response.ok per the fetch specification: a status in the 2xx
    range. -/
def respOk (status : Nat) : Bool := 200 ≤ status && status ≤ 299

/-- Outcome of executing one call: a payload (none models the undefined
    payload of a 204 response; some carries the JSON body as its raw
    text), or a thrown error message. -/
inductive ExecResult
  | ok (payload : Option String)
  | err (msg : String)
deriving DecidableEq, Repr

/-- execRequest's response handling (ManageService.ts lines 74-91): a
    non-success status throws an Error whose message is
    "HTTP <status>: <body text, falling back to statusText when empty>";
    a 204 yields undefined; any other success parses the body as
    JSON. -/
def execRequestResult (status : Nat) (bodyText statusText : String) :
    ExecResult :=
  if !respOk status then
    .err ("HTTP " ++ toString status ++ ": "
      ++ (if bodyText = "" then statusText else bodyText))
  else if status = 204 then .ok none
  else .ok (some bodyText)

/-- sub occurs contiguously inside s. -/
def StrContains (s sub : String) : Prop :=
  ∃ l r, s.data = l ++ sub.data ++ r

lemma strData_append (a b : String) : (a ++ b).data = a.data ++ b.data := rfl

/-- C5: every non-success response makes execRequest fail with an error
    whose message contains the numeric status code and the response's
    textual body, falling back to the generic status phrase when the
    body is empty. -/
theorem C5_error_status_and_body (status : Nat) (bodyText statusText : String)
    (h : respOk status = false) :
    ∃ msg, execRequestResult status bodyText statusText = .err msg ∧
      StrContains msg (toString status) ∧
      (bodyText ≠ "" → StrContains msg bodyText) ∧
      (bodyText = "" → StrContains msg statusText) := by
  refine ⟨"HTTP " ++ toString status ++ ": "
    ++ (if bodyText = "" then statusText else bodyText), ?_, ?_, ?_, ?_⟩
  · simp [execRequestResult, h]
  · exact ⟨"HTTP ".data,
      (": " ++ (if bodyText = "" then statusText else bodyText)).data,
      by simp [strData_append, List.append_assoc]⟩
  · intro hb
    refine ⟨("HTTP " ++ toString status ++ ": ").data, [], ?_⟩
    simp [strData_append, if_neg hb]
  · intro hb
    refine ⟨("HTTP " ++ toString status ++ ": ").data, [], ?_⟩
    simp [strData_append, if_pos hb]

/-- Witness for C5 at the spec's concrete mock: status 404 with body
    "Not found" fails with a message containing both "404" and
    "Not found". -/
theorem C5_error_status_and_body_witness :
    execRequestResult 404 "Not found" "Not Found"
      = .err "HTTP 404: Not found" ∧
    StrContains "HTTP 404: Not found" "404" ∧
    StrContains "HTTP 404: Not found" "Not found" := by
  obtain ⟨msg, hm, hs, hb, -⟩ :=
    C5_error_status_and_body 404 "Not found" "Not Found" (by decide)
  have hmsg : msg = "HTTP 404: Not found" := by
    have h2 : ExecResult.err msg = ExecResult.err "HTTP 404: Not found" := by
      rw [← hm]; decide
    cases h2; rfl
  subst hmsg
  have h404 : (toString 404 : String) = "404" := by decide
  rw [h404] at hs
  exact ⟨hm, hs, hb (by decide)⟩

/-- HTTP method constants (src/unnamed/part_014, HTTP_METHODS). -/
inductive HttpMethod
  | GET | POST | PUT | PATCH | DELETE
deriving DecidableEq, Repr

/-- The create payload (features/decks/types, CreateDeckDto). -/
structure CreateDeckDto where
  name : String
  description : Option String
deriving DecidableEq, Repr

/-- The update payload after destructuring away the id
    (deckService.update's data rest object). -/
structure UpdateDeckData where
  name : Option String
  description : Option String
deriving DecidableEq, Repr

/-- The values this service layer passes to JSON.stringify.  Both
    service versions serialize with the same JSON.stringify at the fetch
    boundary, so extensional equality of serialized bodies is equality
    of these values. -/
inductive DeckBody
  | createDto (d : CreateDeckDto)
  | updateDto (d : UpdateDeckData)
deriving DecidableEq, Repr

/-- The builder's mutable configuration (ManageService.ts lines 5-26):
    prepareRequest news a RequestBuilder whose config holds the
    endpoint, method and a Content-Type: application/json header. -/
structure RequestConfig where
  baseUrl : String
  endpoint : String
  method : HttpMethod
  queryParams : Option (List (String × String)) := none
  body : Option DeckBody := none
  headers : List (String × String)
deriving DecidableEq, Repr

/-- ManageService(baseUrl).prepareRequest(endpoint, method)
    (ManageService.ts lines 17-26, 103-110). -/
def prepareRequest (baseUrl endpoint : String) (method : HttpMethod) :
    RequestConfig :=
  { baseUrl := baseUrl, endpoint := endpoint, method := method,
    headers := [("Content-Type", "application/json")] }

/-- setBody (ManageService.ts lines 34-38). -/
def setBody (c : RequestConfig) (b : DeckBody) : RequestConfig :=
  { c with body := some b }

/-- setQueryParams (ManageService.ts lines 28-32). -/
def setQueryParams (c : RequestConfig) (ps : List (String × String)) :
    RequestConfig :=
  { c with queryParams := some ps }

/-- setHeaders (ManageService.ts lines 40-47): object-spread merge, new
    keys overriding existing ones. -/
def setHeaders (c : RequestConfig) (hs : List (String × String)) :
    RequestConfig :=
  { c with headers :=
      c.headers.filter (fun kv => !(hs.any (fun kv' => kv'.1 == kv.1))) ++ hs }

/-- The key=value&... query string built by URLSearchParams (modelled
    without percent-encoding; no deck operation sets query params). -/
def encodeQuery (ps : List (String × String)) : String :=
  String.intercalate "&" (ps.map (fun p => p.1 ++ "=" ++ p.2))

/-- The one outbound call execRequest issues (ManageService.ts lines
    50-74): full URL from base plus endpoint plus optional encoded query
    string; the configured method and headers; the body only when one
    was set and the method is not GET. -/
structure RequestSpec where
  url : String
  method : HttpMethod
  headers : List (String × String)
  body : Option DeckBody
deriving DecidableEq, Repr

def buildRequest (c : RequestConfig) : RequestSpec :=
  { url :=
      match c.queryParams with
      | none => c.baseUrl ++ c.endpoint
      | some ps => c.baseUrl ++ c.endpoint ++ "?" ++ encodeQuery ps,
    method := c.method,
    headers := c.headers,
    body :=
      match c.body with
      | some b => if c.method ≠ .GET then some b else none
      | none => none }

/-- The five CRUD operations of the deck resource service. -/
inductive DeckOp
  | list | getById | create | update | del
deriving DecidableEq, Repr

/-- The request issued by the raw-fetch deckService cited by the claim
    (src/unnamed/part_002, lines 9-112): plain fetch calls against
    API_URL ++ /v1/decks family.  getAll and getById pass no init beyond
    cache: no-store, so they send no explicit headers and default to
    GET; create/update send a Content-Type: application/json header and
    a JSON.stringify body; delete sends only the method. -/
def deckServiceRawRequest (base id : String) (c : CreateDeckDto)
    (u : UpdateDeckData) : DeckOp → RequestSpec
  | .list => ⟨base ++ "/v1/decks", .GET, [], none⟩
  | .getById => ⟨base ++ "/v1/decks/" ++ id, .GET, [], none⟩
  | .create => ⟨base ++ "/v1/decks", .POST,
      [("Content-Type", "application/json")], some (.createDto c)⟩
  | .update => ⟨base ++ "/v1/decks/" ++ id, .PUT,
      [("Content-Type", "application/json")], some (.updateDto u)⟩
  | .del => ⟨base ++ "/v1/decks/" ++ id, .DELETE, [], none⟩

/-- The raw-fetch deckService's fixed error message per operation
    (part_002: throw new Error('Failed to ...')). -/
def deckServiceRawError : DeckOp → String
  | .list => "Failed to fetch decks"
  | .getById => "Failed to fetch deck"
  | .create => "Failed to create deck"
  | .update => "Failed to update deck"
  | .del => "Failed to delete deck"

/-- The raw-fetch deckService's response handling (part_002): on a
    non-ok status throw the fixed message, else parse the JSON body
    (delete parses nothing). -/
def deckServiceRawOutcome (op : DeckOp) (status : Nat) (bodyText : String) :
    ExecResult :=
  if !respOk status then .err (deckServiceRawError op)
  else if op = .del then .ok none
  else .ok (some bodyText)

/-- The RequestBuilder composition per operation, as written in the
    alternate deckService built on ManageService
    (src/web/src/features/decks/types/index.ts, second document, lines
    27-100, with DECK_ENDPOINTS from src/unnamed/part_005). -/
def deckServiceBuilderConfig (base id : String) (c : CreateDeckDto)
    (u : UpdateDeckData) : DeckOp → RequestConfig
  | .list => prepareRequest base "/v1/decks" .GET
  | .getById => prepareRequest base ("/v1/decks/" ++ id) .GET
  | .create => setBody (prepareRequest base "/v1/decks" .POST) (.createDto c)
  | .update => setBody (prepareRequest base ("/v1/decks/" ++ id) .PUT)
      (.updateDto u)
  | .del => prepareRequest base ("/v1/decks/" ++ id) .DELETE

def deckServiceBuilderRequest (base id : String) (c : CreateDeckDto)
    (u : UpdateDeckData) (op : DeckOp) : RequestSpec :=
  buildRequest (deckServiceBuilderConfig base id c u op)

/-- C2 counterexample: the deckService cited by the claim
    (src/unnamed/part_002) is not extensionally equal to the
    RequestBuilder composition.  At the list operation it sends no
    headers where RequestBuilder sends Content-Type: application/json,
    and on a 404 with body "Not found" it throws the fixed message
    "Failed to fetch decks" where RequestBuilder.execRequest throws
    "HTTP 404: Not found". -/
theorem C2_counterexample :
    (deckServiceRawRequest "" "d1" ⟨"Test", none⟩ ⟨none, none⟩ .list).headers
      = [] ∧
    (deckServiceBuilderRequest "" "d1" ⟨"Test", none⟩ ⟨none, none⟩
      .list).headers = [("Content-Type", "application/json")] ∧
    deckServiceRawOutcome .list 404 "Not found"
      = .err "Failed to fetch decks" ∧
    execRequestResult 404 "Not found" "Not Found"
      = .err "HTTP 404: Not found" ∧
    "Failed to fetch decks" ≠ "HTTP 404: Not found" := by
  decide

/-- C2 (amended): each raw deckService operation issues exactly one
    request whose URL, method and body serialization equal those of the
    corresponding RequestBuilder composition; headers also agree for
    create and update, while list, get-by-id and delete send no headers
    where the builder sends Content-Type: application/json; both fail
    exactly on non-2xx statuses, but the raw service throws a fixed
    per-operation message instead of the builder's
    "HTTP <status>: <body>" shape. -/
theorem C2_raw_vs_builder (base id : String) (c : CreateDeckDto)
    (u : UpdateDeckData) (op : DeckOp) (status : Nat)
    (bodyText statusText : String) :
    (deckServiceRawRequest base id c u op).url
      = (deckServiceBuilderRequest base id c u op).url ∧
    (deckServiceRawRequest base id c u op).method
      = (deckServiceBuilderRequest base id c u op).method ∧
    (deckServiceRawRequest base id c u op).body
      = (deckServiceBuilderRequest base id c u op).body ∧
    ((op = .create ∨ op = .update) →
      (deckServiceRawRequest base id c u op).headers
        = (deckServiceBuilderRequest base id c u op).headers) ∧
    ((op = .list ∨ op = .getById ∨ op = .del) →
      (deckServiceRawRequest base id c u op).headers = [] ∧
      (deckServiceBuilderRequest base id c u op).headers
        = [("Content-Type", "application/json")]) ∧
    (respOk status = false →
      deckServiceRawOutcome op status bodyText
        = .err (deckServiceRawError op) ∧
      execRequestResult status bodyText statusText
        = .err ("HTTP " ++ toString status ++ ": "
            ++ (if bodyText = "" then statusText else bodyText))) := by
  cases op <;>
    refine ⟨by simp [deckServiceRawRequest, deckServiceBuilderRequest,
        deckServiceBuilderConfig, buildRequest, prepareRequest, setBody,
        String.append_assoc], rfl, rfl, ?_, ?_, fun h =>
        ⟨by simp [deckServiceRawOutcome, h],
         by simp [execRequestResult, h]⟩⟩ <;>
      intro h <;>
      first
        | exact ⟨rfl, rfl⟩
        | rfl
        | simp at h

/-- Witness for C2 (amended) at concrete data. -/
theorem C2_raw_vs_builder_witness :
    (deckServiceRawRequest "http://api" "d1" ⟨"Test", none⟩ ⟨none, none⟩
      .create).headers
      = (deckServiceBuilderRequest "http://api" "d1" ⟨"Test", none⟩
        ⟨none, none⟩ .create).headers ∧
    (deckServiceRawRequest "http://api" "d1" ⟨"Test", none⟩ ⟨none, none⟩
      .list).headers = [] ∧
    deckServiceRawOutcome .del 404 "Not found" = .err "Failed to delete deck" := by
  have h1 := C2_raw_vs_builder "http://api" "d1" ⟨"Test", none⟩ ⟨none, none⟩
    .create 200 "" ""
  have h2 := C2_raw_vs_builder "http://api" "d1" ⟨"Test", none⟩ ⟨none, none⟩
    .list 200 "" ""
  have h3 := C2_raw_vs_builder "http://api" "d1" ⟨"Test", none⟩ ⟨none, none⟩
    .del 404 "Not found" "Not Found"
  exact ⟨h1.2.2.2.1 (Or.inl rfl), (h2.2.2.2.2.1 (Or.inl rfl)).1,
    (h3.2.2.2.2.2 (by decide)).1⟩

/-! ## Query hook params/options detection and cache key (C4)
    (src/web/src/shared/hooks/useServiceQuery/useServiceQuery.ts,
    lines 66-101) -/

/-- JavaScript values that can be passed as the hook's third argument
    and appended to the cache key.  An object carries its own enumerable
    keys in order.  (A primitive third argument with the options
    argument omitted would make the untyped membership test throw; the
    claims only exercise object and undefined arguments.) -/
inductive QVal
  | strv (s : String)
  | numv (n : Int)
  | boolv (b : Bool)
  | obj (kvs : List (String × QVal))

/-- The membership probe of the detection: does the object own a key
    named enabled, retry or staleTime
    (useServiceQuery.ts lines 75-77)? -/
def hasAnyOptionKey (kvs : List (String × QVal)) : Bool :=
  kvs.any (fun kv => kv.1 == "enabled" || kv.1 == "retry"
    || kv.1 == "staleTime")

def isOptionsShaped (v : QVal) : Bool :=
  match v with
  | .obj kvs => hasAnyOptionKey kvs
  | _ => false

/-- hasParams (useServiceQuery.ts lines 73-77): options !== undefined,
    or paramsOrOptions defined and not shaped like options. -/
def hasParamsCheck (paramsOrOptions : Option QVal) (optionsPresent : Bool) :
    Bool :=
  optionsPresent ||
    (match paramsOrOptions with
     | none => false
     | some v => !(isOptionsShaped v))

/-- The queryKey passed to the underlying query library
    (useServiceQuery.ts lines 79-83):
    params := hasParams ? paramsOrOptions : undefined;
    queryKey := params !== undefined ? [...queryKey, params] : queryKey. -/
def effectiveQueryKey (queryKey : List QVal) (paramsOrOptions : Option QVal)
    (optionsPresent : Bool) : List QVal :=
  match (if hasParamsCheck paramsOrOptions optionsPresent
         then paramsOrOptions else none) with
  | some p => queryKey ++ [p]
  | none => queryKey

/-- C4 counterexample: calling the params overload with three arguments
    and a params object that contains a key named enabled — here
    useServiceQuery(['deck'], getById, { id: '1', enabled: true }) — is
    misdetected as the options overload, so the effective cache key is
    the supplied key unchanged, not the key with the params appended. -/
theorem C4_counterexample :
    effectiveQueryKey [QVal.strv "deck"]
        (some (QVal.obj [("id", QVal.strv "1"), ("enabled", QVal.boolv true)]))
        false
      = [QVal.strv "deck"] ∧
    [QVal.strv "deck"]
      ≠ [QVal.strv "deck",
         QVal.obj [("id", QVal.strv "1"), ("enabled", QVal.boolv true)]] := by
  refine ⟨rfl, fun h => ?_⟩
  simpa using congrArg List.length h

/-- C4 (amended): when the fourth (options) argument is supplied, the
    effective cache key is the supplied key with the params object
    appended, whatever its keys; when the options argument is omitted,
    this holds exactly for params objects containing none of the keys
    enabled, retry, staleTime — a params object containing one of them
    is treated as options and the key stays unchanged. -/
theorem C4_cache_key (qk : List QVal) (kvs : List (String × QVal)) :
    effectiveQueryKey qk (some (QVal.obj kvs)) true = qk ++ [QVal.obj kvs] ∧
    (hasAnyOptionKey kvs = false →
      effectiveQueryKey qk (some (QVal.obj kvs)) false
        = qk ++ [QVal.obj kvs]) ∧
    (hasAnyOptionKey kvs = true →
      effectiveQueryKey qk (some (QVal.obj kvs)) false = qk) := by
  refine ⟨rfl, fun h => ?_, fun h => ?_⟩ <;>
    simp [effectiveQueryKey, hasParamsCheck, isOptionsShaped, h]

/-- Witness for C4 (amended) at concrete inputs. -/
theorem C4_cache_key_witness :
    effectiveQueryKey [QVal.strv "deck"] (some (QVal.obj [("id",
      QVal.strv "1")])) false
      = [QVal.strv "deck", QVal.obj [("id", QVal.strv "1")]] ∧
    effectiveQueryKey [QVal.strv "deck"]
        (some (QVal.obj [("enabled", QVal.boolv true)])) true
      = [QVal.strv "deck", QVal.obj [("enabled", QVal.boolv true)]] := by
  exact ⟨(C4_cache_key [QVal.strv "deck"] [("id", QVal.strv "1")]).2.1 rfl,
    (C4_cache_key [QVal.strv "deck"] [("enabled", QVal.boolv true)]).1⟩

/-- Witness for C7 at a concrete payload type and values. -/
theorem C7_mutation_state_machine_witness :
    projectMutation (mutationResolve (mutationFetchStart mutationInit) (42 : Nat))
      = ⟨false, true, none, some 42⟩ ∧
    projectMutation (mutationReject (mutationFetchStart mutationInit) "boom")
      = ⟨false, false, some "boom", (none : Option Nat)⟩ := by
  exact ⟨(C7_mutation_state_machine Nat 42 "boom").1,
    (C7_mutation_state_machine Nat 42 "boom").2.1⟩

/-- Witness for C10 at a concrete id, message and state. -/
theorem C10_notification_defaults_witness :
    (showNotification "a" "ok" none none).type = NotificationType.info ∧
    (showNotification "a" "ok" none none).duration = 3000 ∧
    (insertNotif ⟨[], []⟩ (successNotification "a" "ok" none)).timers
      = [("a", 3000)] := by
  have h := C10_notification_defaults "a" "ok" ⟨[], []⟩
  exact ⟨h.1, h.2.1, by rw [h.2.2.2.2.2.2.2.2.2.2]; rfl⟩
